import Mathlib

/-!
# darkcode-server web admin gate — verification development

Shallow embedding of `darkcode_server/web_admin.py` (the `WebAdminHandler`
class and its helpers) together with the parts of the Python standard
library it relies on (`urllib.parse.urlparse`, `urllib.parse.parse_qs`,
`hmac.compare_digest` on `str`, `html.escape`, `json.dumps` on the one
dictionary shape used, `str.strip`), and proofs about the routing,
authentication, session lifecycle and error behaviour of
`WebAdminHandler.handle_request`.

Modelling conventions:
* Python `str` is Lean `String`; `bytes` is `List Nat` (each entry < 256).
* Python exceptions are modelled with `Except PyErr`.
* The process/instance mutable state (`WebAdminHandler._web_pin`,
  `self._authenticated_sessions`) is an explicit `MState` record threaded
  through `handle_request`.
* Sources of nondeterminism (`secrets.token_urlsafe`, `secrets.randbelow`)
  are oracle parameters.
* The large static HTML/CSS template text and the embedded base64 image
  payloads are abridged to short representative markup; the placeholder
  structure of every `str.format` call is preserved exactly.
-/

set_option maxRecDepth 16384

namespace DarkcodeWebAdmin

/-- Python exception kinds that the embedded code can raise. -/
inductive PyErr where
  | typeError
  | attributeError
  | unicodeDecodeError
  | valueError
deriving DecidableEq, Repr

/-- ASCII test, as in CPython `str.isascii` / `hmac.compare_digest`. -/
def asciiChar (c : Char) : Bool := c.toNat < 128

/-- All characters of a string are ASCII. -/
def asciiOnly (s : String) : Bool := s.data.all asciiChar

/-- Code points Python 3 `str.isspace` accepts (the set `str.strip`
removes from both ends). -/
def pySpaceCodes : List Nat :=
  [0x9, 0xA, 0xB, 0xC, 0xD, 0x1C, 0x1D, 0x1E, 0x1F, 0x20, 0x85, 0xA0,
   0x1680, 0x2000, 0x2001, 0x2002, 0x2003, 0x2004, 0x2005, 0x2006, 0x2007,
   0x2008, 0x2009, 0x200A, 0x2028, 0x2029, 0x202F, 0x205F, 0x3000]

/-- `c.isspace()` in Python 3. -/
def isPySpace (c : Char) : Bool := decide (c.toNat ∈ pySpaceCodes)

/-- Strip characters satisfying `isPySpace` from both ends of a char list. -/
def stripChars (l : List Char) : List Char :=
  ((l.dropWhile isPySpace).reverse.dropWhile isPySpace).reverse

/-- Python `str.strip()` with no argument. -/
def pyStrip (s : String) : String := String.mk (stripChars s.data)

/-- Python `str.split(sep)` for a one-character separator; note
`"".split(sep) == [""]` and a trailing separator yields a final empty
piece. -/
def splitOnChar (c : Char) : List Char → List (List Char)
  | [] => [[]]
  | x :: xs =>
    if x = c then [] :: splitOnChar c xs
    else
      match splitOnChar c xs with
      | y :: ys => (x :: y) :: ys
      | [] => [[x]]

/-- Python `str.split(sep, 1)`: split at the first occurrence of `c`,
returning `none` when `c` does not occur. -/
def splitFirst (c : Char) : List Char → Option (List Char × List Char)
  | [] => none
  | x :: xs =>
    if x = c then some ([], xs)
    else (splitFirst c xs).map (fun p => (x :: p.1, p.2))

/-- Lookup in an association list built with Python `dict` assignment
semantics: a later binding of the same key overwrites an earlier one. -/
def dictGet (d : List (String × String)) (k : String) : Option String :=
  d.foldl (fun acc p => if p.1 = k then some p.2 else acc) none

/-- Hex digit test (both cases), as in `urllib.parse._hextobyte`. -/
def isHexDigit (c : Char) : Bool :=
  ('0' ≤ c ∧ c ≤ '9') ∨ ('a' ≤ c ∧ c ≤ 'f') ∨ ('A' ≤ c ∧ c ≤ 'F')

/-- Value of a hex digit. -/
def hexVal (c : Char) : Nat :=
  if '0' ≤ c ∧ c ≤ '9' then c.toNat - 48
  else if 'a' ≤ c ∧ c ≤ 'f' then c.toNat - 87
  else c.toNat - 55

/-- The UTF-8 replacement character U+FFFD. -/
def replChar : Char := Char.ofNat 0xFFFD

/-- UTF-8 decoding of a byte sequence with `errors='replace'`:
each maximal subpart of an ill-formed sequence becomes one U+FFFD,
as CPython's incremental UTF-8 decoder does. -/
def utf8DecodeReplaceF : Nat → List Nat → List Char
  | 0, _ => []
  | _ + 1, [] => []
  | f + 1, b :: rest =>
    if b < 0x80 then Char.ofNat b :: utf8DecodeReplaceF f rest
    else if 0xC2 ≤ b ∧ b ≤ 0xDF then
      match rest with
      | [] => [replChar]
      | b2 :: rest2 =>
        if 0x80 ≤ b2 ∧ b2 ≤ 0xBF then
          Char.ofNat ((b - 0xC0) * 64 + (b2 - 0x80)) :: utf8DecodeReplaceF f rest2
        else replChar :: utf8DecodeReplaceF f (b2 :: rest2)
    else if 0xE0 ≤ b ∧ b ≤ 0xEF then
      match rest with
      | [] => [replChar]
      | b2 :: rest2 =>
        if (if b = 0xE0 then 0xA0 else 0x80) ≤ b2 ∧
           b2 ≤ (if b = 0xED then 0x9F else 0xBF) then
          match rest2 with
          | [] => [replChar]
          | b3 :: rest3 =>
            if 0x80 ≤ b3 ∧ b3 ≤ 0xBF then
              Char.ofNat ((b - 0xE0) * 4096 + (b2 - 0x80) * 64 + (b3 - 0x80)) ::
                utf8DecodeReplaceF f rest3
            else replChar :: utf8DecodeReplaceF f (b3 :: rest3)
        else replChar :: utf8DecodeReplaceF f (b2 :: rest2)
    else if 0xF0 ≤ b ∧ b ≤ 0xF4 then
      match rest with
      | [] => [replChar]
      | b2 :: rest2 =>
        if (if b = 0xF0 then 0x90 else 0x80) ≤ b2 ∧
           b2 ≤ (if b = 0xF4 then 0x8F else 0xBF) then
          match rest2 with
          | [] => [replChar]
          | b3 :: rest3 =>
            if 0x80 ≤ b3 ∧ b3 ≤ 0xBF then
              match rest3 with
              | [] => [replChar]
              | b4 :: rest4 =>
                if 0x80 ≤ b4 ∧ b4 ≤ 0xBF then
                  Char.ofNat ((b - 0xF0) * 262144 + (b2 - 0x80) * 4096 +
                    (b3 - 0x80) * 64 + (b4 - 0x80)) :: utf8DecodeReplaceF f rest4
                else replChar :: utf8DecodeReplaceF f (b4 :: rest4)
            else replChar :: utf8DecodeReplaceF f (b3 :: rest3)
        else replChar :: utf8DecodeReplaceF f (b2 :: rest2)
    else replChar :: utf8DecodeReplaceF f rest

/-- Entry point with enough fuel: every step of the worker consumes at
least one byte, so `l.length` steps always finish the list. -/
def utf8DecodeReplace (l : List Nat) : List Char := utf8DecodeReplaceF l.length l

/-- Strict UTF-8 decoding of a byte sequence (`bytes.decode('utf-8')`):
`none` models `UnicodeDecodeError`. -/
def utf8DecodeStrict : List Nat → Option (List Char)
  | [] => some []
  | b :: rest =>
    if b < 0x80 then (utf8DecodeStrict rest).map (Char.ofNat b :: ·)
    else if 0xC2 ≤ b ∧ b ≤ 0xDF then
      match rest with
      | [] => none
      | b2 :: rest2 =>
        if 0x80 ≤ b2 ∧ b2 ≤ 0xBF then
          (utf8DecodeStrict rest2).map
            (Char.ofNat ((b - 0xC0) * 64 + (b2 - 0x80)) :: ·)
        else none
    else if 0xE0 ≤ b ∧ b ≤ 0xEF then
      match rest with
      | b2 :: b3 :: rest3 =>
        if ((if b = 0xE0 then 0xA0 else 0x80) ≤ b2 ∧
            b2 ≤ (if b = 0xED then 0x9F else 0xBF)) ∧
           (0x80 ≤ b3 ∧ b3 ≤ 0xBF) then
          (utf8DecodeStrict rest3).map
            (Char.ofNat ((b - 0xE0) * 4096 + (b2 - 0x80) * 64 + (b3 - 0x80)) :: ·)
        else none
      | _ => none
    else if 0xF0 ≤ b ∧ b ≤ 0xF4 then
      match rest with
      | b2 :: b3 :: b4 :: rest4 =>
        if ((if b = 0xF0 then 0x90 else 0x80) ≤ b2 ∧
            b2 ≤ (if b = 0xF4 then 0x8F else 0xBF)) ∧
           (0x80 ≤ b3 ∧ b3 ≤ 0xBF) ∧ (0x80 ≤ b4 ∧ b4 ≤ 0xBF) then
          (utf8DecodeStrict rest4).map
            (Char.ofNat ((b - 0xF0) * 262144 + (b2 - 0x80) * 4096 +
              (b3 - 0x80) * 64 + (b4 - 0x80)) :: ·)
        else none
      | _ => none
    else none

/-- Percent-decode an ASCII chunk into bytes as
`urllib.parse.unquote_to_bytes` does: `%XY` with two hex digits becomes
one byte, any other character contributes its own code. -/
def percentBytesF : Nat → List Char → List Nat
  | 0, _ => []
  | _ + 1, [] => []
  | f + 1, c :: rest =>
    if c = '%' then
      match rest with
      | a :: b :: rest2 =>
        if isHexDigit a ∧ isHexDigit b then
          (hexVal a * 16 + hexVal b) :: percentBytesF f rest2
        else 0x25 :: percentBytesF f (a :: b :: rest2)
      | _ => 0x25 :: percentBytesF f rest
    else c.toNat :: percentBytesF f rest

/-- Entry point with enough fuel: every step of the worker consumes at
least one character, so `l.length` steps always finish the list. -/
def percentBytes (l : List Char) : List Nat := percentBytesF l.length l

/-- Worker for `unquoteChars`: `acc` is the reversed ASCII run collected
so far, flushed through percent and UTF-8 decoding at each non-ASCII
character and at the end. -/
def unquoteAux (acc : List Char) : List Char → List Char
  | [] => utf8DecodeReplace (percentBytes acc.reverse)
  | c :: rest =>
    if asciiChar c then unquoteAux (c :: acc) rest
    else utf8DecodeReplace (percentBytes acc.reverse) ++ c :: unquoteAux [] rest

/-- `urllib.parse.unquote(s, errors='replace')` over a char list:
maximal runs of ASCII characters are percent-decoded to bytes and decoded
as UTF-8 with replacement; non-ASCII characters pass through unchanged. -/
def unquoteChars (l : List Char) : List Char := unquoteAux [] l

/-- `urllib.parse.unquote_plus`: `'+'` becomes a space, then unquote. -/
def unquote_plus (l : List Char) : String :=
  String.mk (unquoteChars (l.map (fun c => if c = '+' then ' ' else c)))

/-- Characters allowed in a URL scheme after the first
(`urllib.parse.scheme_chars`). -/
def schemeChar (c : Char) : Bool :=
  c.isAlpha ∨ c.isDigit ∨ c = '+' ∨ c = '-' ∨ c = '.'

/-- Result of `urllib.parse.urlparse`. -/
structure UrlParts where
  scheme : String
  netloc : String
  path : String
  params : String
  query : String
  fragment : String
deriving DecidableEq, Repr

/-- `_splitparams`: split `;params` off the last path segment. -/
def splitParams (l : List Char) : List Char × List Char :=
  if '/' ∈ l then
    match splitFirst '/' l.reverse with
    | some (revSeg, revPre) =>
      match splitFirst ';' revSeg.reverse with
      | some (seg, par) => (revPre.reverse ++ '/' :: seg, par)
      | none => (l, [])
    | none => (l, [])
  else
    match splitFirst ';' l with
    | some (pre, par) => (pre, par)
    | none => (l, [])

/-- C0 controls and space, stripped from the front of a URL by
`urlsplit`. -/
def c0ControlOrSpace (c : Char) : Bool := c.toNat ≤ 0x20

/-- `urllib.parse.urlsplit` followed by the `params` split of
`urlparse`.  Faithful to CPython: the URL is first lstripped of C0
controls and spaces and purged of tab/CR/LF; then scheme, `//netloc`
(raising `ValueError` for mismatched IPv6 brackets), fragment and query
are split off in that order. -/
def urlparse (s : String) : Except PyErr UrlParts :=
  let u0 := (s.data.dropWhile c0ControlOrSpace).filter
    (fun c => ¬ (c = '\t' ∨ c = '\r' ∨ c = '\n'))
  let schemeUrl : List Char × List Char :=
    match splitFirst ':' u0 with
    | some (pre, post) =>
      match pre with
      | [] => ([], u0)
      | c0 :: cs =>
        if asciiChar c0 ∧ c0.isAlpha ∧ cs.all schemeChar then
          ((c0 :: cs).map Char.toLower, post)
        else ([], u0)
    | none => ([], u0)
  let scheme := schemeUrl.1
  let u1 := schemeUrl.2
  let netlocUrl : List Char × List Char :=
    match u1 with
    | '/' :: '/' :: rest =>
      (rest.takeWhile (fun c => ¬ (c = '/' ∨ c = '?' ∨ c = '#')),
       rest.dropWhile (fun c => ¬ (c = '/' ∨ c = '?' ∨ c = '#')))
    | _ => ([], u1)
  let netloc := netlocUrl.1
  if ('[' ∈ netloc ∧ ']' ∉ netloc) ∨ (']' ∈ netloc ∧ '[' ∉ netloc) then
    .error .valueError
  else
    let u2 := netlocUrl.2
    let urlFrag : List Char × List Char :=
      match splitFirst '#' u2 with
      | some (pre, post) => (pre, post)
      | none => (u2, [])
    let urlQuery : List Char × List Char :=
      match splitFirst '?' urlFrag.1 with
      | some (pre, post) => (pre, post)
      | none => (urlFrag.1, [])
    let pathParams :=
      if ';' ∈ urlQuery.1 then splitParams urlQuery.1
      else (urlQuery.1, [])
    .ok ⟨String.mk scheme, String.mk netloc, String.mk pathParams.1,
         String.mk pathParams.2, String.mk urlQuery.2, String.mk urlFrag.2⟩

/-- `urllib.parse.parse_qsl` with the default `keep_blank_values=False`:
chunks are split on `'&'`; empty chunks, chunks without `'='` and chunks
with an empty value are dropped; names and values get `'+'`-to-space and
percent decoding. -/
def parse_qsl (qs : String) : List (String × String) :=
  (splitOnChar '&' qs.data).filterMap fun nv =>
    if nv = [] then none
    else
      match splitFirst '=' nv with
      | none => none
      | some (n, v) =>
        if v = [] then none
        else some (unquote_plus n, unquote_plus v)

/-- Append a parsed query pair into the grouped dictionary that
`parse_qs` builds (insertion order of first occurrence, values
appended). -/
def qsInsert (d : List (String × List String)) (p : String × String) :
    List (String × List String) :=
  if d.any (fun e => e.1 = p.1) then
    d.map (fun e => if e.1 = p.1 then (e.1, e.2 ++ [p.2]) else e)
  else d ++ [(p.1, [p.2])]

/-- `urllib.parse.parse_qs`. -/
def parse_qs (qs : String) : List (String × List String) :=
  (parse_qsl qs).foldl qsInsert []

/-- Lookup in the grouped query dictionary (keys are unique). -/
def qsGet (d : List (String × List String)) (k : String) :
    Option (List String) :=
  (d.find? (fun e => e.1 = k)).map (·.2)

/-- `WebAdminHandler._parse_cookies`: split the header on `';'`, keep
items containing `'='`, strip each item and split at the first `'='`;
later duplicates overwrite earlier ones via `dictGet`. -/
def parse_cookies (cookie_header : String) : List (String × String) :=
  if cookie_header = "" then []
  else
    (splitOnChar ';' cookie_header.data).foldl
      (fun acc item =>
        if '=' ∈ item then
          match splitFirst '=' (stripChars item) with
          | some (k, v) => acc ++ [(String.mk k, String.mk v)]
          | none => acc
        else acc)
      []

/-- `html.escape(s)` with the default `quote=True`. -/
def html_escape (s : String) : String :=
  String.mk (s.data.foldr (fun c acc =>
    (if c = '&' then "&amp;".data
     else if c = '<' then "&lt;".data
     else if c = '>' then "&gt;".data
     else if c = '"' then "&quot;".data
     else if c = '\x27' then "&#x27;".data
     else [c]) ++ acc) [])

/-- JSON values occurring in the status dictionary. -/
inductive JVal where
  | jint (i : Int)
  | jstr (s : String)
  | jbool (b : Bool)
deriving DecidableEq, Repr

/-- Four-digit lowercase hex, as used by `json.dumps` `\uXXXX` escapes. -/
def hex4 (n : Nat) : String :=
  let dig := fun d => Char.ofNat (if d < 10 then 48 + d else 87 + d)
  String.mk [dig (n / 4096 % 16), dig (n / 256 % 16), dig (n / 16 % 16),
    dig (n % 16)]

/-- `json.dumps` escaping of one character (default `ensure_ascii=True`). -/
def jsonEscapeChar (c : Char) : List Char :=
  if c = '"' then ['\\', '"']
  else if c = '\\' then ['\\', '\\']
  else if c = '\n' then ['\\', 'n']
  else if c = '\r' then ['\\', 'r']
  else if c = '\t' then ['\\', 't']
  else if c = '\x08' then ['\\', 'b']
  else if c = '\x0c' then ['\\', 'f']
  else if c.toNat < 0x20 then '\\' :: 'u' :: (hex4 c.toNat).data
  else if c.toNat < 0x7F then [c]
  else if c.toNat ≤ 0xFFFF then '\\' :: 'u' :: (hex4 c.toNat).data
  else
    ('\\' :: 'u' :: (hex4 (0xD800 + (c.toNat - 0x10000) / 1024)).data) ++
    ('\\' :: 'u' :: (hex4 (0xDC00 + (c.toNat - 0x10000) % 1024)).data)

/-- A JSON string literal as `json.dumps` renders it. -/
def jsonStr (s : String) : String :=
  "\"" ++ String.mk (s.data.foldr (fun c acc => jsonEscapeChar c ++ acc) []) ++ "\""

/-- Render one JSON value as `json.dumps` does. -/
def jvalRender : JVal → String
  | .jint i => toString i
  | .jstr s => jsonStr s
  | .jbool b => if b then "true" else "false"

/-- `json.dumps` of a dictionary with the given key order (default
separators `", "` and `": "`). -/
def jsonDumps (l : List (String × JVal)) : String :=
  "\x7b" ++ String.intercalate ", "
    (l.map (fun p => jsonStr p.1 ++ ": " ++ jvalRender p.2)) ++ "\x7d"

/-- `str(datetime.timedelta(seconds=n))`. -/
def formatTimedelta (n : Int) : String :=
  let d := n.fdiv 86400
  let r := (n.fmod 86400).toNat
  let base := toString (r / 3600) ++ ":" ++
    (if r % 3600 / 60 < 10 then "0" else "") ++ toString (r % 3600 / 60) ++ ":" ++
    (if r % 60 < 10 then "0" else "") ++ toString (r % 60)
  if d = 0 then base
  else toString d ++ (if d = 1 ∨ d = -1 then " day, " else " days, ") ++ base

/-- The `config` collaborator, restricted to the fields the handler
reads.  `get_local_ips()` is modelled by the list of address strings its
dictionaries carry; `get_tailscale_ip()` by an optional address. -/
structure Config where
  port : Int
  device_lock : Bool
  tls_enabled : Bool
  token : String
  working_dir : String
  local_ips : List String
  tailscale_ip : Option String
deriving DecidableEq, Repr

/-- One entry of `server.sessions` as the dashboard renders it
(`getattr` defaults folded into the fields). -/
structure WsSession where
  sid : String
  client_ip : String
  message_count : Nat
  is_guest : Bool
deriving DecidableEq, Repr

/-- The optional `server_instance` collaborator; `none` in a field
models a missing attribute (`hasattr` false). -/
structure ServerInfo where
  wsSessions : Option (List WsSession)
  state : Option String
deriving DecidableEq, Repr

/-- The mutable authentication state visible to one handler:
`WebAdminHandler._web_pin` (class attribute, shared process-wide) and
`self._authenticated_sessions` (instance attribute). -/
structure MState where
  webPin : Option String
  sessions : Finset String
deriving DecidableEq

/-- An HTTP response triple `(status, headers, body)`; the body is kept
as a string (UTF-8 encoding of pages is the identity here). -/
structure Resp where
  status : Nat
  headers : List (String × String)
  body : String
deriving DecidableEq, Repr

/-- `generate_web_pin`: six draws of `secrets.randbelow(10)` rendered as
decimal digits and concatenated. -/
def generate_web_pin (draws : Fin 6 → Fin 10) : String :=
  String.mk ((List.finRange 6).map (fun i => Char.ofNat (48 + (draws i).val)))

/-- `WebAdminHandler.regenerate_pin`: overwrite the class-level PIN with
a freshly generated one and return it. -/
def regenerate_pin (draws : Fin 6 → Fin 10) (st : MState) : MState × String :=
  ({ st with webPin := some (generate_web_pin draws) }, generate_web_pin draws)

/-- `WebAdminHandler._is_authenticated`: the `darkcode_admin_session`
cookie value must be a member of the instance's session set (a missing
cookie, `None`, is never a member). -/
def is_authenticated (st : MState) (cookies : List (String × String)) : Bool :=
  match dictGet cookies "darkcode_admin_session" with
  | some v => decide (v ∈ st.sessions)
  | none => false

/-- `hmac.compare_digest` on two `str` arguments: constant-time equality,
but raises `TypeError` when either string has a non-ASCII character. -/
def compare_digest (a b : String) : Except PyErr Bool :=
  if asciiOnly a ∧ asciiOnly b then .ok (a == b) else .error .typeError

/-- `WebAdminHandler._verify_pin`: `False` when no PIN exists, otherwise
constant-time comparison of the stripped input against the PIN. -/
def verify_pin (webPin : Option String) (pin : String) : Except PyErr Bool :=
  match webPin with
  | none => .ok false
  | some w => compare_digest (pyStrip pin) w

/-- The value bound to `pin` in the login branch: a string, or a list
when the form body repeated the field (`parse_qs` values of length ≠ 1
stay lists in `_parse_form_data`). -/
inductive PinVal where
  | s (v : String)
  | l (v : List String)
deriving DecidableEq, Repr

/-- Python truthiness of the extracted `pin` value. -/
def pinTruthy : PinVal → Bool
  | .s v => v ≠ ""
  | .l v => v ≠ []

/-- `_verify_pin` applied to the dynamically-typed `pin` value: the
`None`-PIN check precedes `pin.strip()`, so a list only raises
`AttributeError` when a PIN is active. -/
def verify_pin_any (webPin : Option String) : PinVal → Except PyErr Bool
  | .s v => verify_pin webPin v
  | .l _ => match webPin with
    | none => .ok false
    | some _ => .error .attributeError

/-- `WebAdminHandler._parse_form_data` composed with
`form_data.get('pin', '')`: strict UTF-8 decode of the body (raising
`UnicodeDecodeError` on invalid bytes), `parse_qs`, then a single value
collapses to a string while several stay a list. -/
def form_pin (body : List Nat) : Except PyErr PinVal :=
  match utf8DecodeStrict body with
  | none => .error .unicodeDecodeError
  | some chars =>
    match qsGet (parse_qs (String.mk chars)) "pin" with
    | none => .ok (.s "")
    | some [v] => .ok (.s v)
    | some vs => .ok (.l vs)

/-- The `pin` computed at the top of the `/admin/login` branch: query
parameter first, otherwise the form body when one is present, otherwise
the empty string. -/
def extract_pin (query_params : List (String × List String))
    (body : List Nat) : Except PyErr PinVal :=
  match qsGet query_params "pin" with
  | some vs => .ok (.s (vs.headD ""))
  | none => if body ≠ [] then form_pin body else .ok (.s "")

/-- The embedded base64 logo payload (`LOGO_B64`); the image data is
abridged to its leading characters, which no claim inspects. -/
def LOGO_B64 : String := "iVBORw0KGgoAAAANSUhEUgAAAHgAAAB4"

/-- The bytes `base64.b64decode(LOGO_B64)` yields; binary payload
abridged. -/
def LOGO_BYTES : String := "\x89PNG"

/-- `ADMIN_HTML.format(content=...)`: the shared page shell.  The static
CSS block is abridged; the single `content` placeholder is kept in
place. -/
def ADMIN_HTML_format (content : String) : String :=
  "<!DOCTYPE html><html lang=\"en\"><head><meta charset=\"UTF-8\"><title>DarkCode Server Admin</title></head><body><div class=\"container\">"
  ++ content ++ "</div></body></html>"

/-- `LOGIN_CONTENT.format(error=..., logo_b64=...)`: login form markup,
abridged, with both placeholders kept in place. -/
def LOGIN_CONTENT_format (error logo_b64 : String) : String :=
  "<div class=\"login-form\"><img src=\"data:image/png;base64," ++ logo_b64
  ++ "\" alt=\"DarkCode\"><h1>Admin Login</h1>" ++ error
  ++ "<form id=\"loginForm\"><input type=\"text\" id=\"pinInput\" name=\"pin\" placeholder=\"000000\" maxlength=\"6\"><button type=\"submit\">Login</button></form><p>Enter the 6-digit PIN shown in the terminal</p></div>"

/-- `DASHBOARD_CONTENT.format(...)`: dashboard markup, abridged, with
every placeholder kept in source order. -/
def DASHBOARD_CONTENT_format (logo_b64 uptime port working_dir
    working_dir_short state device_lock tls_status session_count
    sessions_html token_masked token_full local_ip tailscale_row
    ws_url : String) : String :=
  "<header><div class=\"logo\"><img src=\"data:image/png;base64," ++ logo_b64
  ++ "\" alt=\"DarkCode\">DARKCODE <span>admin</span></div><div class=\"status-badge\">Server Running</div></header><div class=\"grid\"><div class=\"card\"><h2>Server Status</h2><span class=\"stat-label\">Uptime</span><span class=\"stat-value\">"
  ++ uptime ++ "</span><span class=\"stat-label\">Port</span><span class=\"stat-value\">"
  ++ port ++ "</span><span class=\"stat-value\" title=\"" ++ working_dir
  ++ "\">" ++ working_dir_short ++ "</span><span class=\"stat-value\">"
  ++ state ++ "</span><span class=\"stat-value\">" ++ device_lock
  ++ "</span><span class=\"stat-value\">" ++ tls_status
  ++ "</span></div><div class=\"card\"><h2>Sessions (" ++ session_count
  ++ ")</h2>" ++ sessions_html
  ++ "</div><div class=\"card\"><h2>Access</h2><span class=\"token\">"
  ++ token_masked ++ "</span><span class=\"stat-value\">" ++ local_ip
  ++ "</span>" ++ tailscale_row ++ "<span class=\"stat-value\">" ++ ws_url
  ++ "</span></div></div><p class=\"refresh-note\">Auto-refreshing every 5 seconds | <a href=\"/admin/logout\">Logout</a></p><script>const TOKEN = \x27"
  ++ token_full ++ "\x27;</script>"

/-- `WebAdminHandler._login_page`. -/
def login_page (error : String) : Resp :=
  let error_html :=
    if error ≠ "" then "<div class=\"error\">" ++ html_escape error ++ "</div>"
    else ""
  ⟨200, [("Content-Type", "text/html")],
   ADMIN_HTML_format (LOGIN_CONTENT_format error_html LOGO_B64)⟩

/-- `WebAdminHandler._serve_logo`. -/
def serve_logo : Resp :=
  ⟨200, [("Content-Type", "image/png"), ("Cache-Control", "max-age=3600")],
   LOGO_BYTES⟩

/-- The `sessions_html` block of the dashboard. -/
def sessions_html_render (server : Option ServerInfo) : String :=
  match server with
  | some sv =>
    match sv.wsSessions with
    | some (s :: ss) =>
      String.join ((s :: ss).map (fun w =>
        "<div class=\"session-item\"><div class=\"session-id\">ID: "
        ++ String.mk (w.sid.data.take 8) ++ "..."
        ++ (if w.is_guest then " <span>[guest]</span>" else "")
        ++ "</div><div class=\"session-info\"><span>IP: " ++ w.client_ip
        ++ "</span><span>Msgs: " ++ toString w.message_count
        ++ "</span></div></div>"))
    | _ => "<p class=\"empty\">No active sessions</p>"
  | none => "<p class=\"empty\">No active sessions</p>"

/-- `len(self.server.sessions)` guarded by the `hasattr` check. -/
def session_count_of (server : Option ServerInfo) : Nat :=
  match server with
  | some sv => match sv.wsSessions with
    | some l => l.length
    | none => 0
  | none => 0

/-- `WebAdminHandler._dashboard_page`.  `start_time` and the request
time are explicit parameters standing for `self.start_time` and
`time.time()`. -/
def dashboard_page (cfg : Config) (server : Option ServerInfo)
    (start_time now : Int) : Resp :=
  let uptime_secs := now - start_time
  let uptime := formatTimedelta uptime_secs
  let session_count := session_count_of server
  let sessions_html :=
    if session_count > 0 then sessions_html_render server
    else "<p class=\"empty\">No active sessions</p>"
  let state :=
    match server with
    | some sv => sv.state.getD "running"
    | none => "running"
  let local_ip := cfg.local_ips.headD "127.0.0.1"
  let tailscale_row :=
    match cfg.tailscale_ip with
    | some ip => "<div class=\"stat\"><span class=\"stat-label\">Tailscale IP</span><span class=\"stat-value\">" ++ ip ++ "</span></div>"
    | none => ""
  let working_dir := cfg.working_dir
  let working_dir_short :=
    if working_dir.data.length ≤ 30 then working_dir
    else "..." ++ String.mk (working_dir.data.drop (working_dir.data.length - 27))
  let protocol := if cfg.tls_enabled then "wss" else "ws"
  let ws_url := protocol ++ "://" ++ local_ip ++ ":" ++ toString cfg.port
  let token_masked := String.mk (cfg.token.data.take 4)
    ++ String.mk (List.replicate 20 '*')
    ++ String.mk (cfg.token.data.drop (cfg.token.data.length - 4))
  ⟨200, [("Content-Type", "text/html")],
   ADMIN_HTML_format (DASHBOARD_CONTENT_format LOGO_B64 uptime
     (toString cfg.port) working_dir working_dir_short state
     (if cfg.device_lock then "Enabled" else "Disabled")
     (if cfg.tls_enabled then "Enabled (wss://)" else "Disabled (ws://)")
     (toString session_count) sessions_html token_masked cfg.token
     local_ip tailscale_row ws_url)⟩

/-- `WebAdminHandler._api_status`. -/
def api_status (cfg : Config) (server : Option ServerInfo)
    (start_time now : Int) : Resp :=
  let uptime_secs := now - start_time
  let state :=
    match server with
    | some sv => sv.state.getD "unknown"
    | none => "unknown"
  ⟨200, [("Content-Type", "application/json")],
   jsonDumps [("uptime_seconds", .jint uptime_secs),
     ("port", .jint cfg.port),
     ("session_count", .jint (session_count_of server)),
     ("state", .jstr state),
     ("device_lock", .jbool cfg.device_lock),
     ("tls_enabled", .jbool cfg.tls_enabled)]⟩

/-- The state update of the `/admin/logout` branch: drop the session
named by the cookie when one is present and truthy
(`set.discard` never errors). -/
def logout_state (st : MState) (cookies : List (String × String)) : MState :=
  match dictGet cookies "darkcode_admin_session" with
  | some v => if v ≠ "" then { st with sessions := st.sessions.erase v }
              else st
  | none => st

/-- The routing body of `handle_request` after the URL has been parsed:
`clean_path` and `query_params` are the results of `urlparse` /
`parse_qs`, `cookies` the parsed `Cookie` header, `new_session` the
oracle for `secrets.token_urlsafe(32)`. -/
def route (cfg : Config) (server : Option ServerInfo)
    (start_time now : Int) (new_session : String) (st : MState)
    (clean_path : String) (query_params : List (String × List String))
    (cookies : List (String × String)) (body : List Nat) :
    Except PyErr (MState × Resp) :=
  if clean_path = "/admin" ∨ clean_path = "/admin/" then
    if is_authenticated st cookies then
      .ok (st, dashboard_page cfg server start_time now)
    else
      .ok (st, login_page "")
  else if clean_path = "/admin/logo" then
    .ok (st, serve_logo)
  else if clean_path = "/admin/login" then
    match extract_pin query_params body with
    | .error e => .error e
    | .ok pin =>
      if pinTruthy pin then
        match verify_pin_any st.webPin pin with
        | .error e => .error e
        | .ok true =>
          .ok ({ st with sessions := insert new_session st.sessions },
            ⟨302,
             [("Location", "/admin"),
              ("Set-Cookie", "darkcode_admin_session=" ++ new_session ++
                "; HttpOnly; SameSite=Strict; Path=/admin")],
             ""⟩)
        | .ok false => .ok (st, login_page "Invalid PIN")
      else
        .ok (st, login_page "")
  else if clean_path = "/admin/logout" then
    .ok (logout_state st cookies,
      ⟨302,
       [("Location", "/admin"),
        ("Set-Cookie", "darkcode_admin_session=; HttpOnly; SameSite=Strict; Path=/admin; Max-Age=0")],
       ""⟩)
  else if clean_path = "/admin/api/status" then
    if ¬ is_authenticated st cookies then
      .ok (st, ⟨401, [("Content-Type", "application/json")],
        "\x7b\"error\": \"Unauthorized\"\x7d"⟩)
    else
      .ok (st, api_status cfg server start_time now)
  else
    .ok (st, ⟨404, [("Content-Type", "text/html")], "Not Found"⟩)

/-- `WebAdminHandler.handle_request`.  The `method` argument is accepted
and ignored exactly as in the source. -/
def handle_request (cfg : Config) (server : Option ServerInfo)
    (start_time now : Int) (new_session : String) (st : MState)
    (path method : String) (headers : List (String × String))
    (body : List Nat) : Except PyErr (MState × Resp) :=
  match urlparse path with
  | .error e => .error e
  | .ok parts =>
    route cfg server start_time now new_session st parts.path
      (parse_qs parts.query)
      (parse_cookies ((dictGet headers "Cookie").getD "")) body

/-- Characters of the `secrets.token_urlsafe` alphabet
(URL-safe base64). -/
def urlsafeChar (c : Char) : Bool :=
  (65 ≤ c.toNat ∧ c.toNat ≤ 90) ∨ (97 ≤ c.toNat ∧ c.toNat ≤ 122) ∨
  (48 ≤ c.toNat ∧ c.toNat ≤ 57) ∨ c.toNat = 45 ∨ c.toNat = 95

/-- Whether `p` is a leading segment of `l`. -/
def listHasPre : List Char → List Char → Bool
  | [], _ => true
  | _ :: _, [] => false
  | a :: ps, b :: ls => a = b ∧ listHasPre ps ls

/-- Whether `p` occurs contiguously inside `l`. -/
def listHasSub (p : List Char) : List Char → Bool
  | [] => listHasPre p []
  | x :: xs => listHasPre p (x :: xs) ∨ listHasSub p xs

/-- Whether `needle` occurs as a substring of `hay`. -/
def strContainsSub (hay needle : String) : Bool :=
  listHasSub needle.data hay.data

/-- Boolean success test for the exception monad. -/
def exceptOk {ε α : Type} : Except ε α → Bool
  | .ok _ => true
  | .error _ => false

deriving instance DecidableEq for Except

/-- A six-decimal-digit PIN, the shape `generate_web_pin` produces. -/
def pinSixDigits (w : String) : Prop :=
  w.data.length = 6 ∧ ∀ c ∈ w.data, 48 ≤ c.toNat ∧ c.toNat ≤ 57

instance (w : String) : Decidable (pinSixDigits w) := by
  unfold pinSixDigits; infer_instance

/-! ## Helper lemmas -/

theorem pin_ascii (w : String) (h : pinSixDigits w) : asciiOnly w = true := by
  obtain ⟨-, h2⟩ := h
  simp only [asciiOnly, List.all_eq_true, asciiChar]
  intro c hc
  have := h2 c hc
  simp only [decide_eq_true_eq]
  omega

theorem string_append_data (a b : String) : (a ++ b).data = a.data ++ b.data :=
  rfl

/-! ## C2: credential verification -/

/-- Claim C2, counterexample: `_verify_pin` does raise on some string
input.  With a PIN active, `hmac.compare_digest` on the stripped input
`"é"` raises `TypeError`, because CPython only compares ASCII `str`
values in constant time. -/
theorem verify_pin_counterexample :
    verify_pin (some "123456") "é" = .error .typeError := by
  decide

/-- Claim C2 (amended): for a six-digit active PIN, `_verify_pin`
returns `True` exactly when the whitespace-stripped input equals the
PIN, returns `False` for every non-matching input and whenever no PIN
has been generated, and does not raise provided the stripped input is
ASCII-only (a non-ASCII input instead raises `TypeError`, see the
counterexample). -/
theorem verify_pin_spec (w s : String) (hw : pinSixDigits w)
    (hs : asciiOnly (pyStrip s) = true) :
    (verify_pin (some w) s = .ok true ↔ pyStrip s = w) ∧
    verify_pin (some w) s = .ok (pyStrip s == w) ∧
    verify_pin none s = .ok false := by
  have hwa : asciiOnly w = true := pin_ascii w hw
  refine ⟨?_, ?_, rfl⟩ <;> simp [verify_pin, compare_digest, hs, hwa]

/-- Witness for `verify_pin_spec` at a concrete PIN and padded input. -/
theorem verify_pin_spec_witness :
    verify_pin (some "123456") " 123456\t" = .ok true ∧
    verify_pin none " 123456\t" = .ok false := by
  have h := verify_pin_spec "123456" " 123456\t" (by decide) (by decide)
  exact ⟨h.1.mpr (by decide), h.2.2⟩

/-! ## C9: PIN rotation frame -/

/-- Claim C9: `regenerate_pin` overwrites only the class-level PIN: the
session set is untouched, every session already valid stays valid, and
the authentication verdict for every cookie set is unchanged, so cookies
issued before the rotation keep authenticating. -/
theorem regenerate_pin_frame (draws : Fin 6 → Fin 10) (st : MState) :
    (regenerate_pin draws st).1.sessions = st.sessions ∧
    (regenerate_pin draws st).1.webPin = some (generate_web_pin draws) ∧
    (regenerate_pin draws st).2 = generate_web_pin draws ∧
    (∀ s, s ∈ st.sessions → s ∈ (regenerate_pin draws st).1.sessions) ∧
    (∀ cookies, is_authenticated (regenerate_pin draws st).1 cookies =
      is_authenticated st cookies) := by
  exact ⟨rfl, rfl, rfl, fun s hs => hs, fun cookies => rfl⟩

/-- Witness for `regenerate_pin_frame` at a concrete state holding one
session. -/
theorem regenerate_pin_frame_witness :
    "tok" ∈ (regenerate_pin (fun _ => (3 : Fin 10))
      ⟨some "111111", {"tok"}⟩).1.sessions ∧
    is_authenticated (regenerate_pin (fun _ => (3 : Fin 10))
      ⟨some "111111", {"tok"}⟩).1
      [("darkcode_admin_session", "tok")] = true := by
  have h := regenerate_pin_frame (fun _ => (3 : Fin 10))
    ⟨some "111111", {"tok"}⟩
  refine ⟨h.2.2.2.1 "tok" (by decide), ?_⟩
  rw [h.2.2.2.2 [("darkcode_admin_session", "tok")]]
  decide

/-! ## C10: cookie-header robustness -/

theorem cookie_foldl_skip (l : List (List Char))
    (h : ∀ item ∈ l, '=' ∉ item) :
    l.foldl
      (fun acc item =>
        if '=' ∈ item then
          match splitFirst '=' (stripChars item) with
          | some (k, v) => acc ++ [(String.mk k, String.mk v)]
          | none => acc
        else acc)
      ([] : List (String × String)) = [] := by
  induction l with
  | nil => rfl
  | cons x xs ih =>
    have hx : '=' ∉ x := h x (by simp)
    simp only [List.foldl_cons, if_neg hx]
    exact ih (fun item hi => h item (by simp [hi]))

theorem route_ok_blind (cfg : Config) (server : Option ServerInfo)
    (t0 now : Int) (ns : String) (st : MState) (cp : String)
    (qp : List (String × List String)) (c1 c2 : List (String × String))
    (body : List Nat) :
    exceptOk (route cfg server t0 now ns st cp qp c1 body) =
      exceptOk (route cfg server t0 now ns st cp qp c2 body) := by
  unfold route
  by_cases h1 : cp = "/admin" ∨ cp = "/admin/"
  · by_cases ha : is_authenticated st c1 <;>
      by_cases hb : is_authenticated st c2 <;>
        simp [h1, ha, hb, exceptOk]
  · by_cases h2 : cp = "/admin/logo"
    · simp [h1, h2, exceptOk]
    · by_cases h3 : cp = "/admin/login"
      · subst h3; rfl
      · by_cases h4 : cp = "/admin/logout"
        · simp [h1, h2, h3, h4, exceptOk]
        · by_cases h5 : cp = "/admin/api/status"
          · by_cases ha : is_authenticated st c1 <;>
              by_cases hb : is_authenticated st c2 <;>
                simp [h1, h2, h3, h4, h5, ha, hb, exceptOk]
          · simp [h1, h2, h3, h4, h5, exceptOk]

/-- Claim C10: `handle_request` never raises because of a missing or
malformed `Cookie` header — whether it raises does not depend on the
headers at all; a header whose items all lack `'='` parses to the empty
cookie mapping; and the empty cookie mapping is never authenticated. -/
theorem cookie_parse_total (cfg : Config) (server : Option ServerInfo)
    (t0 now : Int) (ns : String) (st : MState) (path method : String)
    (hdrs1 hdrs2 : List (String × String)) (body : List Nat) :
    exceptOk (handle_request cfg server t0 now ns st path method hdrs1 body) =
      exceptOk (handle_request cfg server t0 now ns st path method hdrs2 body) ∧
    (∀ ch : String, (∀ item ∈ splitOnChar ';' ch.data, '=' ∉ item) →
      parse_cookies ch = []) ∧
    (∀ st' : MState, is_authenticated st' [] = false) := by
  refine ⟨?_, ?_, fun st' => rfl⟩
  · unfold handle_request
    cases hu : urlparse path with
    | error e => rfl
    | ok parts => exact route_ok_blind ..
  · intro ch h
    unfold parse_cookies
    by_cases hch : ch = ""
    · simp [hch]
    · simp only [if_neg hch]
      exact cookie_foldl_skip _ h

/-- Witness for `cookie_parse_total`: a malformed header parses to no
cookies, and a request with a junk `Cookie` header succeeds exactly like
one with none. -/
theorem cookie_parse_total_witness :
    parse_cookies "junk; garbage; also broken" = [] ∧
    is_authenticated ⟨none, ∅⟩ [] = false ∧
    exceptOk (handle_request ⟨8765, false, false, "tk", "/w", [], none⟩
      none 0 0 "NEW" ⟨none, ∅⟩ "/admin" "GET" [("Cookie", "junk")] []) =
    exceptOk (handle_request ⟨8765, false, false, "tk", "/w", [], none⟩
      none 0 0 "NEW" ⟨none, ∅⟩ "/admin" "GET" [] []) := by
  have h := cookie_parse_total ⟨8765, false, false, "tk", "/w", [], none⟩
    none 0 0 "NEW" ⟨none, ∅⟩ "/admin" "GET" [("Cookie", "junk")] [] []
  exact ⟨h.2.1 "junk; garbage; also broken" (by decide), h.2.2 ⟨none, ∅⟩, h.1⟩

/-! ## C1: dashboard route authorization -/

theorem pages_distinct (cfg : Config) (server : Option ServerInfo)
    (t0 now : Int) (error : String) :
    dashboard_page cfg server t0 now ≠ login_page error := by
  intro h
  have hb : (dashboard_page cfg server t0 now).body.data =
      (login_page error).body.data := by rw [h]
  simp only [dashboard_page, login_page, ADMIN_HTML_format,
    DASHBOARD_CONTENT_format, LOGIN_CONTENT_format, string_append_data,
    List.append_assoc] at hb
  have hc := List.append_cancel_left hb
  have h2 := congrArg (List.take 2) hc
  rw [List.take_append_of_le_length (by decide),
    List.take_append_of_le_length (by decide)] at h2
  exact absurd h2 (by decide)

/-- Claim C1: on path `/admin` (or `/admin/`) the handler returns the
dashboard page exactly when the `darkcode_admin_session` cookie value is
in the valid-session set and the login page otherwise, both with status
200 (never a redirect), leaving the state untouched; and no header other
than `Cookie` influences the outcome. -/
theorem admin_route_auth (cfg : Config) (server : Option ServerInfo)
    (t0 now : Int) (ns : String) (st : MState) (path method : String)
    (hdrs : List (String × String)) (body : List Nat) (parts : UrlParts)
    (hparse : urlparse path = .ok parts)
    (hpath : parts.path = "/admin" ∨ parts.path = "/admin/") :
    handle_request cfg server t0 now ns st path method hdrs body =
      .ok (st,
        if is_authenticated st
            (parse_cookies ((dictGet hdrs "Cookie").getD "")) then
          dashboard_page cfg server t0 now
        else login_page "") ∧
    (dashboard_page cfg server t0 now).status = 200 ∧
    (login_page "").status = 200 ∧
    dashboard_page cfg server t0 now ≠ login_page "" ∧
    (∀ hdrs2, dictGet hdrs2 "Cookie" = dictGet hdrs "Cookie" →
      handle_request cfg server t0 now ns st path method hdrs2 body =
        handle_request cfg server t0 now ns st path method hdrs body) := by
  refine ⟨?_, rfl, rfl, pages_distinct cfg server t0 now "", ?_⟩
  · simp only [handle_request, hparse]
    unfold route
    rw [if_pos hpath]
    by_cases ha : is_authenticated st
        (parse_cookies ((dictGet hdrs "Cookie").getD ""))
    · rw [if_pos ha, if_pos ha]
    · rw [if_neg ha, if_neg ha]
  · intro hdrs2 hc
    simp only [handle_request, hparse, hc]

/-- Witness for `admin_route_auth`: a fresh state with no cookie renders
the login page. -/
theorem admin_route_auth_witness :
    handle_request ⟨8765, false, false, "tk", "/w", [], none⟩ none 0 0 "NEW"
      ⟨some "123456", ∅⟩ "/admin" "GET" [] [] =
      .ok (⟨some "123456", ∅⟩, login_page "") := by
  have h := admin_route_auth ⟨8765, false, false, "tk", "/w", [], none⟩ none
    0 0 "NEW" ⟨some "123456", ∅⟩ "/admin" "GET" [] []
    ⟨"", "", "/admin", "", "", ""⟩ (by decide) (by decide)
  rw [h.1]
  decide

/-! ## C8: non-mutating routes -/

theorem route_frame (cfg : Config) (server : Option ServerInfo)
    (t0 now : Int) (ns : String) (st : MState) (cp : String)
    (qp : List (String × List String)) (cookies : List (String × String))
    (body : List Nat) (h1 : cp ≠ "/admin/login") (h2 : cp ≠ "/admin/logout") :
    ∃ r : Resp, route cfg server t0 now ns st cp qp cookies body =
      .ok (st, r) := by
  unfold route
  by_cases hA : cp = "/admin" ∨ cp = "/admin/"
  · rw [if_pos hA]
    by_cases ha : is_authenticated st cookies
    · rw [if_pos ha]; exact ⟨_, rfl⟩
    · rw [if_neg ha]; exact ⟨_, rfl⟩
  · rw [if_neg hA]
    by_cases hB : cp = "/admin/logo"
    · rw [if_pos hB]; exact ⟨_, rfl⟩
    · rw [if_neg hB, if_neg h1, if_neg h2]
      by_cases hC : cp = "/admin/api/status"
      · rw [if_pos hC]
        by_cases ha : is_authenticated st cookies
        · rw [if_neg (by simp [ha])]; exact ⟨_, rfl⟩
        · rw [if_pos (by simp [ha])]; exact ⟨_, rfl⟩
      · rw [if_neg hC]; exact ⟨_, rfl⟩

/-- Claim C8: every request whose parsed path is neither `/admin/login`
nor `/admin/logout` leaves the whole mutable state — the valid-session
set and the class-level PIN — unchanged. -/
theorem dispatcher_frame (cfg : Config) (server : Option ServerInfo)
    (t0 now : Int) (ns : String) (st : MState) (path method : String)
    (hdrs : List (String × String)) (body : List Nat) (parts : UrlParts)
    (hparse : urlparse path = .ok parts)
    (h1 : parts.path ≠ "/admin/login") (h2 : parts.path ≠ "/admin/logout") :
    ∃ r : Resp, handle_request cfg server t0 now ns st path method hdrs body =
      .ok (st, r) := by
  simp only [handle_request, hparse]
  exact route_frame cfg server t0 now ns st parts.path _ _ body h1 h2

/-- Witness for `dispatcher_frame`: an unroutable path preserves the
state (including the PIN). -/
theorem dispatcher_frame_witness :
    (handle_request ⟨8765, false, false, "tk", "/w", [], none⟩ none 0 0 "NEW"
      ⟨some "123456", {"s"}⟩ "/nope" "GET" [] []).map Prod.fst =
      .ok ⟨some "123456", {"s"}⟩ := by
  obtain ⟨r, hr⟩ := dispatcher_frame ⟨8765, false, false, "tk", "/w", [], none⟩
    none 0 0 "NEW" ⟨some "123456", {"s"}⟩ "/nope" "GET" [] []
    ⟨"", "", "/nope", "", "", ""⟩ (by decide) (by decide) (by decide)
  rw [hr]
  rfl

/-! ## C3: successful login -/

/-- Claim C3: a `/admin/login` request whose extracted PIN (query
parameter first, else form body) is non-empty and verifies mints the
fresh session identifier, adds it to the valid-session set in the state
returned with the response, and answers 302 with `Location: /admin` and
a `Set-Cookie` header carrying the identifier with `HttpOnly`,
`SameSite=Strict` and `Path=/admin`. -/
theorem login_success_mints_session (cfg : Config)
    (server : Option ServerInfo) (t0 now : Int) (ns : String) (st : MState)
    (path method : String) (hdrs : List (String × String)) (body : List Nat)
    (parts : UrlParts) (pv : PinVal)
    (hparse : urlparse path = .ok parts)
    (hpath : parts.path = "/admin/login")
    (hpin : extract_pin (parse_qs parts.query) body = .ok pv)
    (htr : pinTruthy pv = true)
    (hver : verify_pin_any st.webPin pv = .ok true) :
    handle_request cfg server t0 now ns st path method hdrs body =
      .ok ({ st with sessions := insert ns st.sessions },
        ⟨302,
         [("Location", "/admin"),
          ("Set-Cookie", "darkcode_admin_session=" ++ ns ++
            "; HttpOnly; SameSite=Strict; Path=/admin")],
         ""⟩) ∧
    ns ∈ ({ st with sessions := insert ns st.sessions } : MState).sessions := by
  refine ⟨?_, Finset.mem_insert_self ns st.sessions⟩
  simp only [handle_request, hparse]
  unfold route
  rw [hpath, if_neg (by decide), if_neg (by decide), if_pos rfl]
  simp only [hpin, if_pos htr, hver]

/-- Witness for `login_success_mints_session`: a concrete query-string
login with the active PIN. -/
theorem login_success_mints_session_witness :
    handle_request ⟨8765, false, false, "tk", "/w", [], none⟩ none 0 0 "NEW"
      ⟨some "123456", ∅⟩ "/admin/login?pin=123456" "GET" [] [] =
      .ok (⟨some "123456", insert "NEW" ∅⟩,
        ⟨302,
         [("Location", "/admin"),
          ("Set-Cookie",
           "darkcode_admin_session=NEW; HttpOnly; SameSite=Strict; Path=/admin")],
         ""⟩) := by
  have h := login_success_mints_session ⟨8765, false, false, "tk", "/w", [], none⟩
    none 0 0 "NEW" ⟨some "123456", ∅⟩ "/admin/login?pin=123456" "GET" [] []
    ⟨"", "", "/admin/login", "", "pin=123456", ""⟩ (.s "123456")
    (by decide) (by decide) (by decide) (by decide) (by decide)
  exact h.1

/-! ## C6: failed login -/

/-- Claim C6: a `/admin/login` request carrying a non-empty PIN that
fails verification re-renders the login page with status 200 and the
error text `Invalid PIN`, and leaves the state (so the valid-session
set) unchanged. -/
theorem login_failure_rerenders (cfg : Config) (server : Option ServerInfo)
    (t0 now : Int) (ns : String) (st : MState) (path method : String)
    (hdrs : List (String × String)) (body : List Nat) (parts : UrlParts)
    (pv : PinVal)
    (hparse : urlparse path = .ok parts)
    (hpath : parts.path = "/admin/login")
    (hpin : extract_pin (parse_qs parts.query) body = .ok pv)
    (htr : pinTruthy pv = true)
    (hver : verify_pin_any st.webPin pv = .ok false) :
    handle_request cfg server t0 now ns st path method hdrs body =
      .ok (st, login_page "Invalid PIN") ∧
    (login_page "Invalid PIN").status = 200 ∧
    strContainsSub (login_page "Invalid PIN").body "Invalid PIN" = true := by
  refine ⟨?_, rfl, by decide⟩
  simp only [handle_request, hparse]
  unfold route
  rw [hpath, if_neg (by decide), if_neg (by decide), if_pos rfl]
  simp only [hpin, if_pos htr, hver]

/-- Witness for `login_failure_rerenders`: a concrete mismatching PIN. -/
theorem login_failure_rerenders_witness :
    handle_request ⟨8765, false, false, "tk", "/w", [], none⟩ none 0 0 "NEW"
      ⟨some "123456", ∅⟩ "/admin/login?pin=000000" "GET" [] [] =
      .ok (⟨some "123456", ∅⟩, login_page "Invalid PIN") := by
  have h := login_failure_rerenders ⟨8765, false, false, "tk", "/w", [], none⟩
    none 0 0 "NEW" ⟨some "123456", ∅⟩ "/admin/login?pin=000000" "GET" [] []
    ⟨"", "", "/admin/login", "", "pin=000000", ""⟩ (.s "000000")
    (by decide) (by decide) (by decide) (by decide) (by decide)
  exact h.1

/-! ## C5: status API -/

/-- Claim C5: `/admin/api/status` answers 401 with the JSON error body
when the request's session cookie is not valid, and otherwise 200 with a
JSON object holding exactly the six documented fields, whose
`uptime_seconds` is non-negative whenever the request happens at or
after handler start. -/
theorem api_status_auth (cfg : Config) (server : Option ServerInfo)
    (t0 now : Int) (ns : String) (st : MState) (path method : String)
    (hdrs : List (String × String)) (body : List Nat) (parts : UrlParts)
    (hparse : urlparse path = .ok parts)
    (hpath : parts.path = "/admin/api/status") :
    (is_authenticated st
        (parse_cookies ((dictGet hdrs "Cookie").getD "")) = false →
      handle_request cfg server t0 now ns st path method hdrs body =
        .ok (st, ⟨401, [("Content-Type", "application/json")],
          "\x7b\"error\": \"Unauthorized\"\x7d"⟩)) ∧
    (is_authenticated st
        (parse_cookies ((dictGet hdrs "Cookie").getD "")) = true →
      handle_request cfg server t0 now ns st path method hdrs body =
        .ok (st, api_status cfg server t0 now)) ∧
    (api_status cfg server t0 now).status = 200 ∧
    (api_status cfg server t0 now).body =
      jsonDumps [("uptime_seconds", .jint (now - t0)),
        ("port", .jint cfg.port),
        ("session_count", .jint (session_count_of server)),
        ("state", .jstr (match server with
          | some sv => sv.state.getD "unknown"
          | none => "unknown")),
        ("device_lock", .jbool cfg.device_lock),
        ("tls_enabled", .jbool cfg.tls_enabled)] ∧
    (t0 ≤ now → 0 ≤ now - t0) := by
  refine ⟨?_, ?_, rfl, rfl, fun h => by omega⟩ <;> intro ha <;>
    simp only [handle_request, hparse] <;> unfold route <;>
    rw [hpath, if_neg (by decide), if_neg (by decide), if_neg (by decide),
      if_neg (by decide), if_pos rfl]
  · rw [if_pos (by simp [ha])]
  · rw [if_neg (by simp [ha])]

/-- Witness for `api_status_auth`: one unauthenticated and one
authenticated concrete request. -/
theorem api_status_auth_witness :
    handle_request ⟨8765, false, false, "tk", "/w", [], none⟩ none 3 5 "NEW"
      ⟨some "123456", {"s"}⟩ "/admin/api/status" "GET" [] [] =
      .ok (⟨some "123456", {"s"}⟩,
        ⟨401, [("Content-Type", "application/json")],
         "\x7b\"error\": \"Unauthorized\"\x7d"⟩) ∧
    handle_request ⟨8765, false, false, "tk", "/w", [], none⟩ none 3 5 "NEW"
      ⟨some "123456", {"s"}⟩ "/admin/api/status" "GET"
      [("Cookie", "darkcode_admin_session=s")] [] =
      .ok (⟨some "123456", {"s"}⟩,
        api_status ⟨8765, false, false, "tk", "/w", [], none⟩ none 3 5) ∧
    (0 : Int) ≤ 5 - 3 := by
  have hA := api_status_auth ⟨8765, false, false, "tk", "/w", [], none⟩ none
    3 5 "NEW" ⟨some "123456", {"s"}⟩ "/admin/api/status" "GET" [] []
    ⟨"", "", "/admin/api/status", "", "", ""⟩ (by decide) (by decide)
  have hB := api_status_auth ⟨8765, false, false, "tk", "/w", [], none⟩ none
    3 5 "NEW" ⟨some "123456", {"s"}⟩ "/admin/api/status" "GET"
    [("Cookie", "darkcode_admin_session=s")] []
    ⟨"", "", "/admin/api/status", "", "", ""⟩ (by decide) (by decide)
  exact ⟨hA.1 (by decide), hB.2.1 (by decide), hB.2.2.2.2 (by decide)⟩

/-! ## C7: logout -/

/-- Claim C7: `/admin/logout` always answers 302 to `/admin` with a
session-clearing `Set-Cookie` header, removes the request's session
cookie value from the valid-session set when present (under the
reachable-state invariant that the empty string is never a valid
session), keeps the PIN, and is idempotent: a second identical logout
leaves the same state and returns the same response. -/
theorem logout_idempotent (cfg : Config) (server : Option ServerInfo)
    (t0 now : Int) (ns : String) (st : MState) (path method : String)
    (hdrs : List (String × String)) (body : List Nat) (parts : UrlParts)
    (hparse : urlparse path = .ok parts)
    (hpath : parts.path = "/admin/logout")
    (hinv : "" ∉ st.sessions) :
    handle_request cfg server t0 now ns st path method hdrs body =
      .ok (logout_state st (parse_cookies ((dictGet hdrs "Cookie").getD "")),
        ⟨302,
         [("Location", "/admin"),
          ("Set-Cookie",
           "darkcode_admin_session=; HttpOnly; SameSite=Strict; Path=/admin; Max-Age=0")],
         ""⟩) ∧
    (logout_state st (parse_cookies ((dictGet hdrs "Cookie").getD ""))).webPin
      = st.webPin ∧
    (∀ v, dictGet (parse_cookies ((dictGet hdrs "Cookie").getD ""))
        "darkcode_admin_session" = some v →
      v ∉ (logout_state st
        (parse_cookies ((dictGet hdrs "Cookie").getD ""))).sessions) ∧
    logout_state (logout_state st
        (parse_cookies ((dictGet hdrs "Cookie").getD "")))
        (parse_cookies ((dictGet hdrs "Cookie").getD "")) =
      logout_state st (parse_cookies ((dictGet hdrs "Cookie").getD "")) ∧
    handle_request cfg server t0 now ns
        (logout_state st (parse_cookies ((dictGet hdrs "Cookie").getD "")))
        path method hdrs body =
      .ok (logout_state st (parse_cookies ((dictGet hdrs "Cookie").getD "")),
        ⟨302,
         [("Location", "/admin"),
          ("Set-Cookie",
           "darkcode_admin_session=; HttpOnly; SameSite=Strict; Path=/admin; Max-Age=0")],
         ""⟩) := by
  have hred : ∀ s : MState,
      handle_request cfg server t0 now ns s path method hdrs body =
        .ok (logout_state s
            (parse_cookies ((dictGet hdrs "Cookie").getD "")),
          ⟨302,
           [("Location", "/admin"),
            ("Set-Cookie",
             "darkcode_admin_session=; HttpOnly; SameSite=Strict; Path=/admin; Max-Age=0")],
           ""⟩) := by
    intro s
    simp only [handle_request, hparse]
    unfold route
    rw [hpath, if_neg (by decide), if_neg (by decide), if_neg (by decide),
      if_pos rfl]
  have hidem : logout_state (logout_state st
      (parse_cookies ((dictGet hdrs "Cookie").getD "")))
      (parse_cookies ((dictGet hdrs "Cookie").getD "")) =
      logout_state st (parse_cookies ((dictGet hdrs "Cookie").getD "")) := by
    unfold logout_state
    cases hsid : dictGet (parse_cookies ((dictGet hdrs "Cookie").getD ""))
        "darkcode_admin_session" with
    | none => rfl
    | some v =>
      by_cases hv : v = ""
      · simp [hv]
      · simp [hv, Finset.erase_idem]
  refine ⟨hred st, ?_, ?_, hidem, ?_⟩
  · unfold logout_state
    cases dictGet (parse_cookies ((dictGet hdrs "Cookie").getD ""))
        "darkcode_admin_session" with
    | none => rfl
    | some v =>
      by_cases hv : v = ""
      · simp [hv]
      · simp [hv]
  · intro v hv
    unfold logout_state
    rw [hv]
    by_cases hve : v = ""
    · subst hve
      simp [hinv]
    · simp [hve, Finset.not_mem_erase]
  · rw [hred (logout_state st
      (parse_cookies ((dictGet hdrs "Cookie").getD ""))), hidem]

/-- Witness for `logout_idempotent`: logging out a live concrete session
empties the set and yields the fixed 302 response. -/
theorem logout_idempotent_witness :
    handle_request ⟨8765, false, false, "tk", "/w", [], none⟩ none 0 0 "NEW"
      ⟨some "123456", {"s"}⟩ "/admin/logout" "GET"
      [("Cookie", "darkcode_admin_session=s")] [] =
      .ok (⟨some "123456", ∅⟩,
        ⟨302,
         [("Location", "/admin"),
          ("Set-Cookie",
           "darkcode_admin_session=; HttpOnly; SameSite=Strict; Path=/admin; Max-Age=0")],
         ""⟩) := by
  have h := logout_idempotent ⟨8765, false, false, "tk", "/w", [], none⟩ none
    0 0 "NEW" ⟨some "123456", {"s"}⟩ "/admin/logout" "GET"
    [("Cookie", "darkcode_admin_session=s")] []
    ⟨"", "", "/admin/logout", "", "", ""⟩ (by decide) (by decide) (by decide)
  exact h.1.trans (by decide)

/-! ## C4: session store scope -/

theorem splitOnChar_not_mem {c : Char} {l : List Char} (h : c ∉ l) :
    splitOnChar c l = [l] := by
  induction l with
  | nil => rfl
  | cons x xs ih =>
    have hx : x ≠ c := by rintro rfl; exact h (List.mem_cons_self _ _)
    have hxs : c ∉ xs := fun hm => h (List.mem_cons_of_mem _ hm)
    simp [splitOnChar, hx, ih hxs]

theorem splitFirst_append (a b : List Char) {c : Char} (h : c ∉ a) :
    splitFirst c (a ++ c :: b) = some (a, b) := by
  induction a with
  | nil => simp [splitFirst]
  | cons x xs ih =>
    have hx : x ≠ c := by rintro rfl; exact h (List.mem_cons_self _ _)
    have hxs : c ∉ xs := fun hm => h (List.mem_cons_of_mem _ hm)
    simp [splitFirst, hx, ih hxs]

theorem urlsafe_not_space (c : Char) (h : urlsafeChar c = true) :
    isPySpace c = false := by
  unfold urlsafeChar at h
  have hp := of_decide_eq_true h
  unfold isPySpace
  apply decide_eq_false
  intro hmem
  simp only [pySpaceCodes, List.mem_cons, List.not_mem_nil, or_false] at hmem
  omega

theorem stripChars_session_cookie (t : String) (hne : t.data ≠ [])
    (hch : ∀ c ∈ t.data, urlsafeChar c = true) :
    stripChars ("darkcode_admin_session=".data ++ t.data) =
      "darkcode_admin_session=".data ++ t.data := by
  unfold stripChars
  have hd : "darkcode_admin_session=".data =
      'd' :: "arkcode_admin_session=".data := by decide
  have h1 : List.dropWhile isPySpace
      ("darkcode_admin_session=".data ++ t.data) =
      "darkcode_admin_session=".data ++ t.data := by
    rw [hd, List.cons_append]
    simp [List.dropWhile_cons, show isPySpace 'd' = false from by decide]
  rw [h1, List.reverse_append]
  cases hc : t.data.reverse with
  | nil =>
    exact absurd (by simpa using congrArg List.reverse hc) hne
  | cons c cs =>
    have hcm : c ∈ t.data := by
      have : c ∈ t.data.reverse := by rw [hc]; exact List.mem_cons_self _ _
      simpa using this
    have hcs : isPySpace c = false := urlsafe_not_space c (hch c hcm)
    rw [List.cons_append, List.dropWhile_cons_of_neg (by simp [hcs])]
    rw [← List.cons_append, ← hc]
    simp [List.reverse_append]

theorem parse_cookies_session_cookie (t : String) (hne : t.data ≠ [])
    (hch : ∀ c ∈ t.data, urlsafeChar c = true) :
    parse_cookies ("darkcode_admin_session=" ++ t) =
      [("darkcode_admin_session", t)] := by
  have hdata : ("darkcode_admin_session=" ++ t).data =
      "darkcode_admin_session=".data ++ t.data := rfl
  have hnz : ("darkcode_admin_session=" ++ t) ≠ "" := by
    intro h
    have hd := congrArg String.data h
    rw [hdata] at hd
    simp only [List.append_eq_nil] at hd
    exact absurd hd.1 (by decide)
  have hsemi : ';' ∉ "darkcode_admin_session=".data ++ t.data := by
    intro hm
    rcases List.mem_append.1 hm with h | h
    · exact absurd h (by decide)
    · exact absurd (hch ';' h) (by decide)
  have heq : '=' ∈ "darkcode_admin_session=".data ++ t.data :=
    List.mem_append.2 (Or.inl (by decide))
  unfold parse_cookies
  rw [if_neg hnz, hdata, splitOnChar_not_mem hsemi]
  simp only [List.foldl_cons, List.foldl_nil, if_pos heq]
  rw [stripChars_session_cookie t hne hch]
  have hshape : "darkcode_admin_session=".data ++ t.data =
      "darkcode_admin_session".data ++ '=' :: t.data := by
    rw [show "darkcode_admin_session=".data =
      "darkcode_admin_session".data ++ ['='] from by decide]
    simp
  rw [hshape, splitFirst_append _ _ (by decide)]
  rfl

/-- Claim C4, counterexample: sessions are not process-wide.  A login
handled by one `WebAdminHandler` instance (its own fresh
`_authenticated_sessions` set) mints `tokA`, yet a second instance in
the same process (same class-level PIN, its own empty instance set)
answers the dashboard request bearing that cookie with the login page,
not the dashboard. -/
theorem sessions_not_process_wide :
    handle_request ⟨8765, false, false, "tk", "/w", [], none⟩ none 0 0 "tokA"
      ⟨some "123456", ∅⟩ "/admin/login?pin=123456" "GET" [] [] =
      .ok (⟨some "123456", {"tokA"}⟩,
        ⟨302,
         [("Location", "/admin"),
          ("Set-Cookie",
           "darkcode_admin_session=tokA; HttpOnly; SameSite=Strict; Path=/admin")],
         ""⟩) ∧
    handle_request ⟨8765, false, false, "tk", "/w", [], none⟩ none 0 0 "tokB"
      ⟨some "123456", ∅⟩ "/admin" "GET"
      [("Cookie", "darkcode_admin_session=tokA")] [] =
      .ok (⟨some "123456", ∅⟩, login_page "") ∧
    login_page "" ≠
      dashboard_page ⟨8765, false, false, "tk", "/w", [], none⟩ none 0 0 := by
  refine ⟨by decide, by decide, ?_⟩
  exact fun h =>
    pages_distinct ⟨8765, false, false, "tk", "/w", [], none⟩ none 0 0 "" h.symm

/-- Claim C4 (amended): the session store is scoped to one handler
instance.  A session identifier present in an instance's
`_authenticated_sessions` set — as after a successful login handled by
that instance — authenticates every subsequent `/admin` request bearing
it on the same instance; an instance with its own set that lacks the
identifier does not accept it (see the counterexample).  Only the PIN is
class-level. -/
theorem sessions_instance_scoped (cfg : Config) (server : Option ServerInfo)
    (t0 now : Int) (ns : String) (st : MState) (method : String)
    (body : List Nat) (t : String)
    (hmem : t ∈ st.sessions) (hne : t.data ≠ [])
    (hch : ∀ c ∈ t.data, urlsafeChar c = true) :
    handle_request cfg server t0 now ns st "/admin" method
      [("Cookie", "darkcode_admin_session=" ++ t)] body =
      .ok (st, dashboard_page cfg server t0 now) := by
  have hu : urlparse "/admin" = .ok ⟨"", "", "/admin", "", "", ""⟩ := by decide
  simp only [handle_request, hu]
  unfold route
  rw [if_pos (Or.inl rfl)]
  have hck : (dictGet [("Cookie", "darkcode_admin_session=" ++ t)]
      "Cookie").getD "" = "darkcode_admin_session=" ++ t := rfl
  rw [hck, parse_cookies_session_cookie t hne hch]
  have hauth : is_authenticated st [("darkcode_admin_session", t)] = true := by
    simp [is_authenticated, dictGet, hmem]
  rw [if_pos hauth]

/-- Witness for `sessions_instance_scoped`: the instance that minted
`tokA` serves the dashboard to it. -/
theorem sessions_instance_scoped_witness :
    handle_request ⟨8765, false, false, "tk", "/w", [], none⟩ none 0 0 "N"
      ⟨some "123456", {"tokA"}⟩ "/admin" "GET"
      [("Cookie", "darkcode_admin_session=" ++ "tokA")] [] =
      .ok (⟨some "123456", {"tokA"}⟩,
        dashboard_page ⟨8765, false, false, "tk", "/w", [], none⟩ none 0 0) := by
  exact sessions_instance_scoped ⟨8765, false, false, "tk", "/w", [], none⟩
    none 0 0 "N" ⟨some "123456", {"tokA"}⟩ "GET" [] "tokA" (by decide)
    (by decide) (by decide)

end DarkcodeWebAdmin
